import Mathlib

/-!
# Niyamr-AI front end: the document-check component

A shallow embedding of `src/frontend/src/App.jsx`.

* The React state of `App` (eight `useState` cells) is the record `State`.
* Every event handler is a function from the state it closes over (and from
  the outcome of the one asynchronous call it awaits) to the list of actions
  it performs, in program order.  Running the actions over a state gives the
  state once the handler has settled.
* `handleSubmit` is also given in its two parts, before and after the awaited
  request, so that the actions of other handlers and timers that run while the
  request is pending can be placed between them (`submitDuring`).
* Pending `setTimeout` callbacks are kept in `World`, next to a clock.
* JavaScript values received from the service are `JsVal`; numbers are
  `JsNum`, whose finite values are exact rationals (the rounding of IEEE-754
  doubles is not modelled).
-/

namespace Niyamr

/-! ## JavaScript values -/

/-- JavaScript numbers: `NaN`, the two infinities, and finite values, which are
modelled by exact rationals. -/
inductive JsNum where
  | nan
  | posInf
  | negInf
  | fin (q : ℚ)
  deriving DecidableEq

/-- Primitive values: `undefined` (also the value of an absent property),
`null`, booleans, numbers and strings. -/
inductive Prim where
  | undefined
  | null
  | bool (b : Bool)
  | num (x : JsNum)
  | str (s : String)
  deriving DecidableEq

/-- Values of a parsed response body: primitives, arrays and plain objects
(own properties, in order). -/
inductive JsVal where
  | prim (p : Prim)
  | arr (items : List JsVal)
  | obj (props : List (String × JsVal))

/-- The value `undefined`. -/
def JsVal.undefined : JsVal := .prim .undefined

/-- The value `null`. -/
def JsVal.null : JsVal := .prim .null

/-- A string value. -/
def JsVal.str (s : String) : JsVal := .prim (.str s)

/-- Truthiness of a number: `NaN` and zero are falsy. -/
def JsNum.truthy : JsNum → Bool
  | .nan => false
  | .fin q => decide (q ≠ 0)
  | _ => true

/-- Truthiness of a primitive (`ToBoolean`). -/
def Prim.truthy : Prim → Bool
  | .undefined => false
  | .null => false
  | .bool b => b
  | .num x => x.truthy
  | .str s => decide (s ≠ "")

/-- Truthiness of a value (`ToBoolean`): arrays and objects are truthy. -/
def JsVal.truthy : JsVal → Bool
  | .prim p => p.truthy
  | _ => true

/-- The values `null` and `undefined`. -/
def JsVal.nullish : JsVal → Bool
  | .prim .undefined => true
  | .prim .null => true
  | _ => false

/-- The call `Array.isArray(v)`. -/
def JsVal.isArray : JsVal → Bool
  | .arr _ => true
  | _ => false

/-- The value of `v.k` for a value `v` that is neither `null` nor `undefined`
and a data property name `k`: an own property of an object, `undefined`
otherwise.  (None of the names the component reads this way, `meta`,
`pagesCount`, `model`, `result`, `rule`, `status`, `evidence`, `reasoning`,
`confidence`, `error`, is a built-in property of a string, number, boolean or
array.) -/
def JsVal.prop (v : JsVal) (k : String) : JsVal :=
  match v with
  | .obj props => (props.lookup k).getD .undefined
  | _ => .undefined

/-- Errors thrown while evaluating an expression. -/
inductive JsError where
  | typeError
  deriving DecidableEq

/-- The expression `v.k`: reading a property of `null` or `undefined` throws a
`TypeError`. -/
def JsVal.getProp (v : JsVal) (k : String) : Except JsError JsVal :=
  if v.nullish then .error .typeError else .ok (v.prop k)

/-- The expression `v?.k`: `undefined` when `v` is `null` or `undefined`. -/
def JsVal.optChain (v : JsVal) (k : String) : JsVal :=
  if v.nullish then .undefined else v.prop k

/-- The expression `a ?? b`. -/
def JsVal.coalesce (a b : JsVal) : JsVal :=
  if a.nullish then b else a

/-- The expression `a || b`. -/
def JsVal.or (a b : JsVal) : JsVal :=
  if a.truthy then a else b

/-- The test `v === s` for a string literal `s`. -/
def JsVal.strictEqStr (v : JsVal) (s : String) : Bool :=
  match v with
  | .prim (.str t) => t == s
  | _ => false

/-! ## Numbers -/

/-- Sign of a rational as used by the multiplication of infinities. -/
def ratSign (q : ℚ) : Int :=
  if q < 0 then -1 else if q = 0 then 0 else 1

/-- An infinity of the given sign, `NaN` for sign zero. -/
def JsNum.infOfSign (s : Int) : JsNum :=
  if s < 0 then .negInf else if s = 0 then .nan else .posInf

/-- Sign of a number that is not `NaN`. -/
def JsNum.sign : JsNum → Int
  | .nan => 0
  | .posInf => 1
  | .negInf => -1
  | .fin q => ratSign q

/-- The product `a * b`. -/
def JsNum.mul : JsNum → JsNum → JsNum
  | .nan, _ => .nan
  | _, .nan => .nan
  | .fin p, .fin q => .fin (p * q)
  | a, b => JsNum.infOfSign (a.sign * b.sign)

/-- The call `Math.min(a, b)`. -/
def JsNum.min : JsNum → JsNum → JsNum
  | .nan, _ => .nan
  | _, .nan => .nan
  | .negInf, _ => .negInf
  | _, .negInf => .negInf
  | .posInf, b => b
  | a, .posInf => a
  | .fin p, .fin q => .fin (if p ≤ q then p else q)

/-- The expression `x || 0` on numbers. -/
def JsNum.orZero (x : JsNum) : JsNum :=
  if x.truthy then x else .fin 0

/-! ### `Number(string)` -/

/-- White space and line terminators that `Number` strips from both ends of a
string (`StrWhiteSpaceChar`). -/
def isStrWhiteSpaceChar (c : Char) : Bool :=
  let n := c.toNat
  n == 0x09 || n == 0x0A || n == 0x0B || n == 0x0C || n == 0x0D || n == 0x20 ||
  n == 0xA0 || n == 0x1680 || (0x2000 ≤ n && n ≤ 0x200A) || n == 0x2028 ||
  n == 0x2029 || n == 0x202F || n == 0x205F || n == 0x3000 || n == 0xFEFF

/-- Strip `StrWhiteSpaceChar`s from both ends. -/
def trimWhiteSpace (cs : List Char) : List Char :=
  ((cs.dropWhile isStrWhiteSpaceChar).reverse.dropWhile isStrWhiteSpaceChar).reverse

/-- Value of a digit in the given base, if it is one. -/
def digitValue (base : Nat) (c : Char) : Option Nat :=
  let n := c.toNat
  let v :=
    if 48 ≤ n && n ≤ 57 then some (n - 48)
    else if 97 ≤ n && n ≤ 102 then some (n - 87)
    else if 65 ≤ n && n ≤ 70 then some (n - 55)
    else none
  v.bind fun d => if d < base then some d else none

/-- Value of a run of digits in the given base read after the value `acc`;
`none` when a character is not a digit of that base. -/
def digitsValue (base : Nat) : Nat → List Char → Option Nat
  | acc, [] => some acc
  | acc, c :: cs =>
    match digitValue base c with
    | some d => digitsValue base (acc * base + d) cs
    | none => none

/-- Value of a non-empty run of digits in the given base. -/
def nonEmptyDigits (base : Nat) (cs : List Char) : Option Nat :=
  if cs.isEmpty then none else digitsValue base 0 cs

/-- Whether a character is a decimal digit. -/
def isDecimalDigit (c : Char) : Bool :=
  48 ≤ c.toNat && c.toNat ≤ 57

/-- Value of an `ExponentPart` body (`SignedInteger`): an optional sign and a
non-empty run of decimal digits. -/
def signedInteger (cs : List Char) : Option Int :=
  match cs with
  | '+' :: ds => (nonEmptyDigits 10 ds).map Int.ofNat
  | '-' :: ds => (nonEmptyDigits 10 ds).map fun n => - Int.ofNat n
  | ds => (nonEmptyDigits 10 ds).map Int.ofNat

/-- Value of what follows the mantissa: nothing, or `e`/`E` and a signed
integer. -/
def exponentPart (cs : List Char) : Option Int :=
  match cs with
  | [] => some 0
  | 'e' :: rest => signedInteger rest
  | 'E' :: rest => signedInteger rest
  | _ => none

/-- Value of a `StrUnsignedDecimalLiteral` other than `Infinity`: digits, an
optional fraction, an optional exponent, with a digit on at least one side of
the point. -/
def unsignedDecimal (cs : List Char) : Option ℚ :=
  let intDigits := cs.takeWhile isDecimalDigit
  let rest := cs.dropWhile isDecimalDigit
  let fracDigits :=
    match rest with
    | '.' :: r => r.takeWhile isDecimalDigit
    | _ => []
  let tail :=
    match rest with
    | '.' :: r => r.dropWhile isDecimalDigit
    | r => r
  if intDigits.isEmpty && fracDigits.isEmpty then none
  else
    match digitsValue 10 0 (intDigits ++ fracDigits), exponentPart tail with
    | some m, some e => some ((m : ℚ) * (10 : ℚ) ^ (e - (fracDigits.length : Int)))
    | _, _ => none

/-- Value of a `StrUnsignedDecimalLiteral`. -/
def unsignedDecimalLiteral (cs : List Char) : JsNum :=
  if cs = "Infinity".toList then .posInf
  else
    match unsignedDecimal cs with
    | some q => .fin q
    | none => .nan

/-- The negation `-x`. -/
def JsNum.neg : JsNum → JsNum
  | .nan => .nan
  | .posInf => .negInf
  | .negInf => .posInf
  | .fin q => .fin (-q)

/-- Value of a `StrNumericLiteral`: a signed decimal literal, or an unsigned
binary, octal or hexadecimal integer literal. -/
def strNumericLiteral (cs : List Char) : JsNum :=
  match cs with
  | '0' :: 'x' :: ds => ((nonEmptyDigits 16 ds).map fun n => JsNum.fin n).getD .nan
  | '0' :: 'X' :: ds => ((nonEmptyDigits 16 ds).map fun n => JsNum.fin n).getD .nan
  | '0' :: 'o' :: ds => ((nonEmptyDigits 8 ds).map fun n => JsNum.fin n).getD .nan
  | '0' :: 'O' :: ds => ((nonEmptyDigits 8 ds).map fun n => JsNum.fin n).getD .nan
  | '0' :: 'b' :: ds => ((nonEmptyDigits 2 ds).map fun n => JsNum.fin n).getD .nan
  | '0' :: 'B' :: ds => ((nonEmptyDigits 2 ds).map fun n => JsNum.fin n).getD .nan
  | '+' :: ds => unsignedDecimalLiteral ds
  | '-' :: ds => (unsignedDecimalLiteral ds).neg
  | ds => unsignedDecimalLiteral ds

/-- The call `Number(s)` for a string `s` (`StringToNumber`): the empty or blank
string is `0`, a numeric literal is its value, anything else is `NaN`. -/
def stringToNumber (s : String) : JsNum :=
  let cs := trimWhiteSpace s.toList
  if cs.isEmpty then .fin 0 else strNumericLiteral cs

/-- The call `Number(p)` for a primitive `p` (`ToNumber`). -/
def Prim.toNumber : Prim → JsNum
  | .undefined => .nan
  | .null => .fin 0
  | .bool b => if b then .fin 1 else .fin 0
  | .num x => x
  | .str s => stringToNumber s

/-- Text put in a cell: literal characters, or the host text of a number (the
shortest decimal that reads back as the same double, which this development
does not spell out), after a minus sign when `neg` is set. -/
inductive Text where
  | chars (s : String)
  | ofNumber (neg : Bool) (x : JsNum)
  deriving DecidableEq

/-- The call `String(p)` for a primitive `p`. -/
def Prim.toDisplayString : Prim → Text
  | .undefined => .chars "undefined"
  | .null => .chars "null"
  | .bool b => .chars (if b then "true" else "false")
  | .num x => .ofNumber false x
  | .str s => .chars s

/-- The decimal digits of `n`, padded on the left with zeros to at least three
characters, with a point before the last two. -/
def fixed2Digits (n : Nat) : String :=
  let ds := (Nat.repr n).toList
  let padded := List.replicate (3 - ds.length) '0' ++ ds
  String.mk (padded.take (padded.length - 2) ++ '.' :: padded.drop (padded.length - 2))

/-- The call `x.toFixed(2)`: the text of a non-finite number; otherwise a minus
sign for a negative `x`, followed, for `|x| < 10^21`, by the integer nearest to
`|x| * 100` (the larger one on a tie) written with two decimals, and for larger
`|x|` by the host text of `|x|`. -/
def JsNum.toFixed2 : JsNum → Text
  | .nan => .chars "NaN"
  | .posInf => .chars "Infinity"
  | .negInf => .chars "-Infinity"
  | .fin q =>
    if (10 : ℚ) ^ 21 ≤ |q| then .ofNumber (decide (q < 0)) (.fin |q|)
    else .chars ((if q < 0 then "-" else "") ++ fixed2Digits ⌊|q| * 100 + 1 / 2⌋.toNat)

/-! ## The confidence cell (lines 178 and 180)

The cell is modelled for a `confidence` that is a primitive value; arrays and
objects, whose conversion to a number or a string runs their own `toString`,
are left out. -/

/-- Whether `v.toFixed` is truthy: numbers have the method, other primitives
do not. -/
def Prim.hasToFixed : Prim → Bool
  | .num _ => true
  | _ => false

/-- The expression `c ?? 0` on primitives. -/
def Prim.coalesceZero : Prim → Prim
  | .undefined => .num (.fin 0)
  | .null => .num (.fin 0)
  | p => p

/-- The text of the confidence label (line 178):
`(c ?? 0).toFixed ? Number(c).toFixed(2) : String(c)` for a verdict whose
`confidence` is the primitive `c`. -/
def confidenceLabel (c : Prim) : Text :=
  if c.coalesceZero.hasToFixed then c.toNumber.toFixed2 else c.toDisplayString

/-- The number `w` in the bar style `width: w%` (line 180):
`Math.min(100, (Number(c) || 0) * 100)`. -/
def barWidth (c : Prim) : JsNum :=
  JsNum.min (.fin 100) (JsNum.mul c.toNumber.orZero (.fin 100))

/-! ## The results panel (lines 137 to 192) -/

/-- The three colour classes of the status badge (line 171). -/
inductive StatusStyle where
  | emerald
  | rose
  | amber
  deriving DecidableEq

/-- The class chosen on line 171: the first for the status string `PASS`, the
second for `FAIL`, the third for any other value. -/
def statusStyle (status : JsVal) : StatusStyle :=
  if status.strictEqStr "PASS" then .emerald
  else if status.strictEqStr "FAIL" then .rose
  else .amber

/-- One table row (lines 165 to 183).  `key` is the React key `i`, `ruleNo` the
number shown in `rule #…`; `rule`, `status` and `reasoning` are the values put
in their cells, `evidence` is the argument of `String(…)`, and `confidence` is
the value the confidence cell is computed from (`confidenceLabel`, `barWidth`). -/
structure Row where
  key : Nat
  rule : JsVal
  ruleNo : Nat
  style : StatusStyle
  status : JsVal
  evidence : JsVal
  reasoning : JsVal
  confidence : JsVal

/-- The row built by the `map` callback for element `r` at index `i`; reading a
property of a `null` or `undefined` element throws. -/
def renderRow (i : Nat) (r : JsVal) : Except JsError Row := do
  let rule ← r.getProp "rule"
  let status ← r.getProp "status"
  let evidence ← r.getProp "evidence"
  let reasoning ← r.getProp "reasoning"
  let confidence ← r.getProp "confidence"
  pure { key := i, rule := rule, ruleNo := i + 1, style := statusStyle status,
         status := status, evidence := evidence, reasoning := reasoning,
         confidence := confidence }

/-- The rows of `items.map((r, i) => …)`, the first element having index `i`. -/
def renderRows : Nat → List JsVal → Except JsError (List Row)
  | _, [] => pure []
  | i, r :: rs => do
    let row ← renderRow i r
    let rows ← renderRows (i + 1) rs
    pure (row :: rows)

/-- What the results panel shows: the placeholder, or the header (pages and
model) followed by either the table or the `JSON.stringify` dump of a value. -/
inductive ResultsView where
  | placeholder
  | table (pages model : JsVal) (rows : List Row)
  | dump (pages model : JsVal) (value : JsVal)

/-- The value shown after `Pages:` (line 147): `results.meta?.pagesCount`, or a
dash when that is `null` or `undefined`. -/
def pagesShown (results : JsVal) : JsVal :=
  ((results.prop "meta").optChain "pagesCount").coalesce (.str "—")

/-- The value shown after `Model:` (line 148): `results.meta?.model`, or the
string `local` when that is `null` or `undefined`. -/
def modelShown (results : JsVal) : JsVal :=
  ((results.prop "meta").optChain "model").coalesce (.str "local")

/-- The results panel for the current `results` (lines 137 to 192). -/
def renderResults (results : JsVal) : Except JsError ResultsView :=
  if !results.truthy then pure .placeholder
  else
    match results.prop "result" with
    | .arr items => do
      let rows ← renderRows 0 items
      pure (.table (pagesShown results) (modelShown results) rows)
    | other => pure (.dump (pagesShown results) (modelShown results) other)

/-! ## State and actions -/

/-- A `File` handle; only its name is read (line 99). -/
structure File where
  name : String
  deriving DecidableEq

/-- The state cells of `App` (lines 5 to 12); a `file` that is `null` or
`undefined` is `none`. -/
structure State where
  file : Option File
  rule1 : String
  rule2 : String
  rule3 : String
  results : JsVal
  loading : Bool
  error : JsVal
  copied : Bool

/-- The state on mount. -/
def State.initial : State :=
  { file := none, rule1 := "", rule2 := "", rule3 := "", results := .null,
    loading := false, error := .str "", copied := false }

/-- A value appended to the multipart form. -/
inductive FormValue where
  | file (f : File)
  | text (s : String)
  deriving DecidableEq

/-- A `FormData` body: its parts in the order they were appended. -/
abbrev FormData := List (String × FormValue)

/-- What a handler does, in program order: state setters, event calls, the
HTTP request, console output, the clipboard write and the timer. -/
inductive Action where
  | preventDefault
  | stopPropagation
  | setFile (f : Option File)
  | setRule1 (s : String)
  | setRule2 (s : String)
  | setRule3 (s : String)
  | setResults (v : JsVal)
  | setLoading (b : Bool)
  | setError (v : JsVal)
  | setCopied (b : Bool)
  | post (url : String) (form : FormData)
  | consoleError (v : JsVal)
  | clipboardWriteJson (v : JsVal)
  | setTimeoutHideCopied (delay : Nat)

/-- Effect of one action on the state cells. -/
def State.apply (s : State) : Action → State
  | .setFile f => { s with file := f }
  | .setRule1 t => { s with rule1 := t }
  | .setRule2 t => { s with rule2 := t }
  | .setRule3 t => { s with rule3 := t }
  | .setResults v => { s with results := v }
  | .setLoading b => { s with loading := b }
  | .setError v => { s with error := v }
  | .setCopied b => { s with copied := b }
  | _ => s

/-- The state after a list of actions. -/
def State.run (s : State) (actions : List Action) : State :=
  actions.foldl State.apply s

/-- The request bodies posted by a list of actions. -/
def requests : List Action → List FormData
  | [] => []
  | .post _ form :: rest => form :: requests rest
  | _ :: rest => requests rest

/-- Whether a list of actions turns the loading flag on. -/
def entersLoading : List Action → Bool
  | [] => false
  | .setLoading true :: _ => true
  | _ :: rest => entersLoading rest

/-! ## Handlers -/

/-- The handler `handleFile` (lines 15 to 18). -/
def handleFile (f : Option File) : List Action :=
  [.setFile f, .setError (.str "")]

/-- The expression `files?.[0]` for a file list that may be missing. -/
def firstFile (files : Option (List File)) : Option File :=
  files.bind List.head?

/-- The handler `handleDrop` (lines 20 to 24) for a drop carrying `files`. -/
def handleDrop (files : Option (List File)) : List Action :=
  .preventDefault ::
    (match firstFile files with
     | some dropped => handleFile (some dropped)
     | none => [])

/-- The `onChange` handler of the file input (line 104) for a change event
whose target holds `files`. -/
def handleFileChange (files : Option (List File)) : List Action :=
  handleFile (firstFile files)

/-- The `Remove` button (line 100). -/
def handleRemove : List Action :=
  [.stopPropagation, .setFile none]

/-- The `Reset` button (line 125). -/
def handleReset : List Action :=
  [.setRule1 "", .setRule2 "", .setRule3 "", .setFile none, .setResults .null,
   .setError (.str "")]

/-- A rejected request: the body of the response, if one was received
(`err.response?.data`), and the message of the error. -/
structure Failure where
  responseData : Option JsVal
  message : String

/-- How the awaited request ends: a response with a body, or a rejection. -/
inductive Outcome where
  | ok (data : JsVal)
  | fail (err : Failure)

/-- The expression `err?.response?.data`. -/
def Failure.data (err : Failure) : JsVal :=
  err.responseData.getD .undefined

/-- The expression `err?.response?.data?.error`. -/
def Failure.errorField (err : Failure) : JsVal :=
  err.data.optChain "error"

/-- The message set when no file is selected (line 28). -/
def missingFileMessage : String := "Please upload a PDF (2–10 pages)"

/-- The endpoint of the request (line 38). -/
def analyzeUrl : String := "http://localhost:8000/analyze"

/-- The form built on lines 32 to 36. -/
def submitForm (f : File) (s : State) : FormData :=
  [("pdf", .file f), ("rule1", .text s.rule1), ("rule2", .text s.rule2),
   ("rule3", .text s.rule3)]

/-- The handler `handleSubmit` (lines 26 to 51), run from state `s`, the awaited
request ending in `o`. -/
def handleSubmit (s : State) (o : Outcome) : List Action :=
  .preventDefault ::
    (match s.file with
     | none => [.setError (.str missingFileMessage)]
     | some f =>
       [.setError (.str ""), .setLoading true, .post analyzeUrl (submitForm f s)] ++
       (match o with
        | .ok data => [.setResults data, .setCopied false]
        | .fail err =>
          [.consoleError (err.data.or (.str err.message)),
           .setError (err.errorField.or (.str err.message)),
           .setResults .null]) ++
       [.setLoading false])

/-- The state once `handleSubmit` has settled, nothing else having run while
the request was awaited. -/
def submit (s : State) (o : Outcome) : State :=
  s.run (handleSubmit s o)

/-- The part of `handleSubmit` that runs at the click, up to the `await` on
line 38 (lines 27 to 40). -/
def handleSubmitStart (s : State) : List Action :=
  .preventDefault ::
    (match s.file with
     | none => [.setError (.str missingFileMessage)]
     | some f => [.setError (.str ""), .setLoading true, .post analyzeUrl (submitForm f s)])

/-- The part of `handleSubmit` that runs once the awaited request has ended in
`o` (lines 42 to 50); nothing when the handler returned on line 28. -/
def handleSubmitResume (s : State) (o : Outcome) : List Action :=
  match s.file with
  | none => []
  | some _ =>
    (match o with
     | .ok data => [.setResults data, .setCopied false]
     | .fail err =>
       [.consoleError (err.data.or (.str err.message)),
        .setError (err.errorField.or (.str err.message)),
        .setResults .null]) ++
    [.setLoading false]

/-- The state once `handleSubmit` has settled, the actions `during` (of other
handlers and of timers) having run while the request was awaited. -/
def submitDuring (s : State) (during : List Action) (o : Outcome) : State :=
  ((s.run (handleSubmitStart s)).run during).run (handleSubmitResume s o)

/-- Whether a list of actions sets the error message. -/
def setsError : List Action → Bool
  | [] => false
  | .setError _ :: _ => true
  | _ :: rest => setsError rest

/-- How the awaited clipboard write ends. -/
inductive ClipboardOutcome where
  | written
  | failed
  deriving DecidableEq

/-- The handler `handleCopyResults` (lines 53 to 64), run from state `s`, the
awaited write of `JSON.stringify(results, null, 2)` ending in `c`. -/
def handleCopyResults (s : State) (c : ClipboardOutcome) : List Action :=
  if !s.results.truthy then []
  else
    .clipboardWriteJson s.results ::
      (match c with
       | .written => [.setCopied true, .setTimeoutHideCopied 2000]
       | .failed => [.consoleError (.str "copy failed"), .setError (.str "Copy failed")])

/-! ## Timers -/

/-- The component in time: its state, a clock in milliseconds, and the times
at which the pending `() => setCopied(false)` callbacks are due. -/
structure World where
  ui : State
  now : Nat
  timers : List Nat

/-- Effect of one action: a `setTimeout` adds a pending callback, anything else
acts on the state cells. -/
def World.apply (w : World) : Action → World
  | .setTimeoutHideCopied delay => { w with timers := w.timers ++ [w.now + delay] }
  | a => { w with ui := w.ui.apply a }

/-- The world after a list of actions. -/
def World.run (w : World) (actions : List Action) : World :=
  actions.foldl World.apply w

/-- Let `d` milliseconds pass: every callback due by then runs (each sets
`copied` to false) and is no longer pending. -/
def World.advance (w : World) (d : Nat) : World :=
  { ui := if w.timers.any (fun t => decide (t ≤ w.now + d)) then { w.ui with copied := false }
          else w.ui
    now := w.now + d
    timers := w.timers.filter fun t => decide (w.now + d < t) }

/-- A click on `Copy Results` whose clipboard write ends in `c`. -/
def World.copy (w : World) (c : ClipboardOutcome) : World :=
  w.run (handleCopyResults w.ui c)

/-- A click on `Reset`. -/
def World.reset (w : World) : World :=
  w.run handleReset

/-- A submit whose request ends in `o`. -/
def World.submit (w : World) (o : Outcome) : World :=
  w.run (handleSubmit w.ui o)

/-! ## Sample data -/

/-- A file handle named `doc.pdf`. -/
def docPdf : File := { name := "doc.pdf" }

/-- The response body of the end-to-end scenario: one verdict, `PASS`, with
confidence `0.92`. -/
def sampleResponse : JsVal :=
  .obj [("meta", .obj [("pagesCount", .prim (.num (.fin 3))), ("model", .str "local")]),
        ("result", .arr [.obj [("rule", .str "must have a date"), ("status", .str "PASS"),
                               ("evidence", .str "2024-01-01"), ("reasoning", .str "date found"),
                               ("confidence", .prim (.num (.fin (23 / 25))))]])]

/-- The state after choosing `doc.pdf` and a successful check. -/
def checkedState : State :=
  submit (State.initial.run (handleFile (some docPdf))) (.ok sampleResponse)

/-- The world on mount, at time zero, with no timer pending. -/
def World.initial : World :=
  { ui := State.initial, now := 0, timers := [] }

/-- The world after choosing `doc.pdf` and a successful check. -/
def checkedWorld : World :=
  { ui := checkedState, now := 0, timers := [] }

/-- A rejection without a response: a network-level error. -/
def networkError : Failure :=
  { responseData := none, message := "Network Error" }

/-- A rejection whose response body is an object with an empty `error` string. -/
def emptyErrorFailure : Failure :=
  { responseData := some (.obj [("error", .str "")]),
    message := "Request failed with status code 500" }

/-- The world after a check, a successful copy at time 0 and, one second later,
a second successful copy. -/
def twoCopies : World :=
  ((checkedWorld.copy .written).advance 1000).copy .written

/-- The row the table is expected to show for the verdict `r` at index `i`:
its fields in their cells and the label `i + 1`. -/
def expectedRow (i : Nat) (r : JsVal) : Row :=
  { key := i, rule := r.prop "rule", ruleNo := i + 1, style := statusStyle (r.prop "status"),
    status := r.prop "status", evidence := r.prop "evidence",
    reasoning := r.prop "reasoning", confidence := r.prop "confidence" }

/-! ## Lemmas on running handlers -/

theorem run_handleReset (s : State) :
    s.run handleReset =
      { s with rule1 := "", rule2 := "", rule3 := "", file := none, results := .null,
               error := .str "" } := rfl

theorem handleSubmit_no_file (s : State) (o : Outcome) (h : s.file = none) :
    handleSubmit s o = [.preventDefault, .setError (.str missingFileMessage)] := by
  simp [handleSubmit, h]

theorem submit_no_file (s : State) (o : Outcome) (h : s.file = none) :
    submit s o = { s with error := .str missingFileMessage } := by
  simp [submit, handleSubmit_no_file s o h, State.run, State.apply]

theorem submit_ok (s : State) (f : File) (data : JsVal) (h : s.file = some f) :
    submit s (.ok data) =
      { s with error := .str "", results := data, copied := false, loading := false } := by
  simp [submit, handleSubmit, h, State.run, State.apply]

theorem submit_fail (s : State) (f : File) (err : Failure) (h : s.file = some f) :
    submit s (.fail err) =
      { s with error := err.errorField.or (.str err.message), results := .null,
               loading := false } := by
  simp [submit, handleSubmit, h, State.run, State.apply]

/-- The missing-file message is a non-empty string. -/
theorem missingFileMessage_truthy : (JsVal.str missingFileMessage).truthy = true := by
  decide

/-! ## Reset (C1) -/

/-- C1, as stated, fails: after a check and a successful copy the copied flag
is true, and a click on Reset leaves it true. -/
theorem reset_keeps_copied :
    ((checkedWorld.copy .written).ui.copied = true) ∧
      ((checkedWorld.copy .written).reset.ui.copied = true) := by
  constructor <;> rfl

/-- C1, amended: from every prior state, Reset yields file = none, all three
rules empty, results = null and error = the empty string, and leaves the copied
flag and the loading flag as they were. -/
theorem reset_clears_inputs_and_output (s : State) :
    (s.run handleReset).file = none ∧
    (s.run handleReset).rule1 = "" ∧
    (s.run handleReset).rule2 = "" ∧
    (s.run handleReset).rule3 = "" ∧
    (s.run handleReset).results = .null ∧
    (s.run handleReset).error = .str "" ∧
    (s.run handleReset).copied = s.copied ∧
    (s.run handleReset).loading = s.loading := by
  rw [run_handleReset]
  exact ⟨rfl, rfl, rfl, rfl, rfl, rfl, rfl, rfl⟩

/-! ## Submit: result and error (C2) -/

/-- The handler `handleSubmit` is its part before the `await` followed by its
part after it. -/
theorem handleSubmit_split (s : State) (o : Outcome) :
    handleSubmit s o = handleSubmitStart s ++ handleSubmitResume s o := by
  cases hf : s.file <;> simp [handleSubmit, handleSubmitStart, handleSubmitResume, hf]

/-- With nothing running during the request, the two-part run is `submit`. -/
theorem submitDuring_nil (s : State) (o : Outcome) : submitDuring s [] o = submit s o := by
  simp [submitDuring, submit, handleSubmit_split, State.run]

/-- Actions that do not set the error message leave it as it was. -/
theorem run_error_of_not_setsError (acts : List Action) :
    ∀ s : State, setsError acts = false → (s.run acts).error = s.error := by
  induction acts with
  | nil => intro s _; rfl
  | cons a rest ih =>
    intro s h
    have hstep : s.run (a :: rest) = (s.apply a).run rest := rfl
    rw [hstep]
    cases a <;> first
      | (simp [setsError] at h; done)
      | (rw [ih _ (by simpa [setsError] using h)]; rfl)

/-- A failed request clears the results and sets its message whatever ran
while the request was pending. -/
theorem submitDuring_fail (s : State) (during : List Action) (f : File) (err : Failure)
    (h : s.file = some f) :
    (submitDuring s during (.fail err)).results = .null ∧
    (submitDuring s during (.fail err)).error = err.errorField.or (.str err.message) := by
  constructor <;> simp [submitDuring, handleSubmitResume, h, State.run, State.apply]

/-- C2, as stated, fails, in two ways.  After a successful check the file is
removed and the form is submitted again: the validation failure sets the error
message and the earlier result is still displayed.  And after a successful
check the form is submitted again and, while the request is pending, a click on
Copy Results fails: the success response then leaves its result next to the
message `Copy failed`. -/
theorem result_and_error_together :
    ((submit (checkedState.run handleRemove) (.ok sampleResponse)).results.truthy = true ∧
     (submit (checkedState.run handleRemove) (.ok sampleResponse)).error.truthy = true) ∧
    ((submitDuring checkedState
        (handleCopyResults (checkedState.run (handleSubmitStart checkedState)) .failed)
        (.ok sampleResponse)).results.truthy = true ∧
     (submitDuring checkedState
        (handleCopyResults (checkedState.run (handleSubmitStart checkedState)) .failed)
        (.ok sampleResponse)).error = .str "Copy failed") := by
  refine ⟨⟨by decide, by decide⟩, by decide, rfl⟩

/-- C2, amended: whatever other handlers and timers do while the request is
pending, after a failed request has settled no result is present, so at most
one of results present and error message non-empty holds; after a success
response the results are the response body and the error message is the one in
place when the response arrived, which is empty, so that at most one of the two
holds, when nothing set an error message during the request; a validation
failure (no file) sets the missing-file message, which is non-empty, and leaves
the results as they were. -/
theorem submit_result_error_exclusive (s : State) (during : List Action) :
    (∀ f err, s.file = some f →
      (submitDuring s during (.fail err)).results = .null ∧
      ((submitDuring s during (.fail err)).results.truthy &&
        (submitDuring s during (.fail err)).error.truthy) = false) ∧
    (∀ f data, s.file = some f →
      (submitDuring s during (.ok data)).results = data ∧
      (submitDuring s during (.ok data)).error =
        ((s.run (handleSubmitStart s)).run during).error ∧
      (setsError during = false →
        (submitDuring s during (.ok data)).error = .str "" ∧
        ((submitDuring s during (.ok data)).results.truthy &&
          (submitDuring s during (.ok data)).error.truthy) = false)) ∧
    (∀ o, s.file = none →
      (submit s o).error = .str missingFileMessage ∧
      (submit s o).error.truthy = true ∧
      (submit s o).results = s.results) := by
  refine ⟨?_, ?_, ?_⟩
  · intro f err hf
    have hres : (submitDuring s during (.fail err)).results = .null := by
      simp [submitDuring, handleSubmitResume, hf, State.run, State.apply]
    rw [hres]
    exact ⟨rfl, rfl⟩
  · intro f data hf
    have hres : (submitDuring s during (.ok data)).results = data := by
      simp [submitDuring, handleSubmitResume, hf, State.run, State.apply]
    have herr : (submitDuring s during (.ok data)).error =
        ((s.run (handleSubmitStart s)).run during).error := by
      simp [submitDuring, handleSubmitResume, hf, State.run, State.apply]
    refine ⟨hres, herr, ?_⟩
    intro hno
    have hempty : (submitDuring s during (.ok data)).error = .str "" := by
      rw [herr, run_error_of_not_setsError during _ hno]
      simp [handleSubmitStart, hf, State.run, State.apply]
    rw [hempty]
    have : (JsVal.str "").truthy = false := by decide
    simp [this]
  · intro o hf
    rw [submit_no_file s o hf]
    exact ⟨rfl, missingFileMessage_truthy, rfl⟩

/-- C2, amended, at the state after choosing `doc.pdf` and a check: with the
rules edited and the copy timer firing during the request, a failed request
leaves no result and a success response leaves no error message; without a
file the earlier result stays. -/
theorem submit_result_error_exclusive_witness :
    ((submitDuring checkedState [.setRule1 "a", .setCopied false]
        (.fail networkError)).results.truthy &&
      (submitDuring checkedState [.setRule1 "a", .setCopied false]
        (.fail networkError)).error.truthy) = false ∧
    ((submitDuring checkedState [.setRule1 "a", .setCopied false]
        (.ok sampleResponse)).results.truthy &&
      (submitDuring checkedState [.setRule1 "a", .setCopied false]
        (.ok sampleResponse)).error.truthy) = false ∧
    (submit (checkedState.run handleRemove) (.fail networkError)).results =
      (checkedState.run handleRemove).results :=
  ⟨((submit_result_error_exclusive checkedState [.setRule1 "a", .setCopied false]).1
      docPdf networkError rfl).2,
   (((submit_result_error_exclusive checkedState [.setRule1 "a", .setCopied false]).2.1
      docPdf sampleResponse rfl).2.2 rfl).2,
   ((submit_result_error_exclusive (checkedState.run handleRemove) []).2.2
      (.fail networkError) rfl).2.2⟩

/-! ## Submit without a file (C3) -/

/-- C3: in every state with no file set, `handleSubmit` does nothing but cancel
the form event and set the missing-file message (a non-empty string): it posts
no request, never turns the loading flag on, and the settled state differs from
the prior one in the error message only. -/
theorem submit_without_file (s : State) (o : Outcome) (h : s.file = none) :
    handleSubmit s o = [.preventDefault, .setError (.str missingFileMessage)] ∧
    requests (handleSubmit s o) = [] ∧
    entersLoading (handleSubmit s o) = false ∧
    submit s o = { s with error := .str missingFileMessage } ∧
    (submit s o).loading = s.loading ∧
    (JsVal.str missingFileMessage).truthy = true := by
  rw [submit_no_file s o h, handleSubmit_no_file s o h]
  exact ⟨rfl, rfl, rfl, rfl, rfl, missingFileMessage_truthy⟩

/-- C3 on mount: a submit posts nothing and only sets the message. -/
theorem submit_without_file_witness :
    State.initial.file = none ∧
    requests (handleSubmit State.initial (.ok sampleResponse)) = [] ∧
    entersLoading (handleSubmit State.initial (.ok sampleResponse)) = false :=
  ⟨rfl, (submit_without_file State.initial (.ok sampleResponse) rfl).2.1,
   (submit_without_file State.initial (.ok sampleResponse) rfl).2.2.1⟩

/-! ## Failed request (C4) -/

/-- C4, as stated, fails: the response body of a failed request has an `error`
field, the empty string, and the error message is the transport message, not
that field. -/
theorem empty_error_field_falls_back :
    emptyErrorFailure.data.prop "error" = .str "" ∧
    (submit checkedState (.fail emptyErrorFailure)).error =
      .str "Request failed with status code 500" := by
  constructor <;> rfl

/-- C4, amended: for every submit with a file whose request fails, the settled
state has results = null, whatever was displayed before, loading off, and error
equal to the `error` field of the response body when that field is truthy
(present and not empty, `null`, `false`, zero or `NaN`), otherwise the message of the
thrown error; a thrown error without a response gives its message. -/
theorem failed_request_state (s : State) (f : File) (err : Failure)
    (h : s.file = some f) :
    (submit s (.fail err)).results = .null ∧
    (submit s (.fail err)).loading = false ∧
    (submit s (.fail err)).error =
      (if err.errorField.truthy then err.errorField else .str err.message) ∧
    (err.responseData = none → (submit s (.fail err)).error = .str err.message) := by
  rw [submit_fail s f err h]
  refine ⟨rfl, rfl, rfl, ?_⟩
  intro hn
  have hu : err.errorField = .undefined := by
    simp [Failure.errorField, Failure.data, hn, JsVal.optChain, JsVal.undefined, JsVal.nullish]
  show err.errorField.or (.str err.message) = .str err.message
  rw [hu]
  rfl

/-- C4, amended, in the end-to-end scenario: with a result displayed, a request
that throws `Network Error` leaves no result and that message. -/
theorem failed_request_state_witness :
    checkedState.results.truthy = true ∧
    (submit checkedState (.fail networkError)).results = .null ∧
    (submit checkedState (.fail networkError)).error = .str "Network Error" :=
  ⟨by decide, (failed_request_state checkedState docPdf networkError rfl).1,
   (failed_request_state checkedState docPdf networkError rfl).2.2.2 rfl⟩

/-! ## Request body (C10) -/

/-- C10: every submit with a file set posts exactly one request, whatever the
rules are and however the request ends; its body has exactly four parts, in
order `pdf` = the file, then `rule1`, `rule2`, `rule3` = the current rule
strings, an empty rule being sent as the empty string. -/
theorem submit_posts_one_form (s : State) (f : File) (o : Outcome)
    (h : s.file = some f) :
    requests (handleSubmit s o) =
      [[("pdf", .file f), ("rule1", .text s.rule1), ("rule2", .text s.rule2),
        ("rule3", .text s.rule3)]] ∧
    (requests (handleSubmit s o)).length = 1 ∧
    ∀ form ∈ requests (handleSubmit s o), form.length = 4 := by
  have hreq : requests (handleSubmit s o) = [submitForm f s] := by
    cases o <;> simp [handleSubmit, h, requests]
  rw [hreq]
  exact ⟨rfl, rfl, by simp [submitForm]⟩

/-- C10 in the end-to-end scenario: one rule filled in, two left empty. -/
theorem submit_posts_one_form_witness :
    requests (handleSubmit
        { State.initial with file := some docPdf, rule1 := "must have a date" }
        (.ok sampleResponse)) =
      [[("pdf", .file docPdf), ("rule1", .text "must have a date"), ("rule2", .text ""),
        ("rule3", .text "")]] :=
  (submit_posts_one_form { State.initial with file := some docPdf, rule1 := "must have a date" }
    docPdf (.ok sampleResponse) rfl).1

/-! ## File acquisition (C9) -/

/-- A drop that carries no file leaves the state as it was. -/
theorem drop_without_file (s : State) (files : Option (List File))
    (h : firstFile files = none) : s.run (handleDrop files) = s := by
  simp [handleDrop, h, State.run, State.apply]

/-- A drop that carries files selects the first one and clears the error. -/
theorem drop_selects_first (s : State) (f : File) (rest : List File) :
    s.run (handleDrop (some (f :: rest))) = { s with file := some f, error := .str "" } := by
  simp [handleDrop, firstFile, handleFile, State.run, State.apply]

/-- C9 at the failing input: with `doc.pdf` selected, a change event of the
file input that carries no file clears the selection. -/
theorem change_without_file_clears :
    (State.initial.run (handleFile (some docPdf))).file = some docPdf ∧
    ((State.initial.run (handleFile (some docPdf))).run (handleFileChange (some []))).file =
      none := by
  constructor <;> rfl

/-! ## The confidence cell (C5, C6) -/

/-- The bar width of a confidence whose number is `NaN` is zero. -/
theorem barWidth_of_nan (c : Prim) (h : c.toNumber = .nan) : barWidth c = .fin 0 := by
  simp [barWidth, h, JsNum.orZero, JsNum.truthy, JsNum.mul, JsNum.min]

/-- The bar width of a finite numeric confidence. -/
theorem barWidth_fin (c : ℚ) : barWidth (.num (.fin c)) = .fin (min 100 (c * 100)) := by
  by_cases hc : c = 0
  · subst hc
    simp [barWidth, Prim.toNumber, JsNum.orZero, JsNum.truthy, JsNum.mul, JsNum.min]
  · simp only [barWidth, Prim.toNumber, JsNum.orZero, JsNum.truthy, JsNum.mul, JsNum.min]
    simp only [ne_eq, hc, not_false_eq_true, decide_True, if_true]
    rfl

/-- The bar width of the confidence `Infinity`. -/
theorem barWidth_posInf : barWidth (.num .posInf) = .fin 100 := by
  norm_num [barWidth, Prim.toNumber, JsNum.orZero, JsNum.truthy, JsNum.mul, JsNum.min,
    JsNum.sign, ratSign, JsNum.infOfSign]

/-- The bar width of the confidence `-Infinity`. -/
theorem barWidth_negInf : barWidth (.num .negInf) = .negInf := by
  norm_num [barWidth, Prim.toNumber, JsNum.orZero, JsNum.truthy, JsNum.mul, JsNum.min,
    JsNum.sign, ratSign, JsNum.infOfSign]

/-- The bar width is never `NaN`. -/
theorem barWidth_ne_nan (c : Prim) : barWidth c ≠ .nan := by
  have key : ∀ x : JsNum, JsNum.min (.fin 100) (JsNum.mul x.orZero (.fin 100)) ≠ .nan := by
    intro x
    cases x with
    | nan => simp [JsNum.orZero, JsNum.truthy, JsNum.mul, JsNum.min]
    | posInf =>
      have := barWidth_posInf
      simp only [barWidth, Prim.toNumber] at this
      rw [this]
      simp
    | negInf =>
      have := barWidth_negInf
      simp only [barWidth, Prim.toNumber] at this
      rw [this]
      simp
    | fin q =>
      have := barWidth_fin q
      simp only [barWidth, Prim.toNumber] at this
      rw [this]
      simp
  exact key c.toNumber

/-- The label of the end-to-end scenario: the confidence 0.92 is shown as `0.92`. -/
theorem label_of_sample_confidence :
    confidenceLabel (.num (.fin (23 / 25))) = .chars "0.92" := by
  have hfloor : ⌊|(23 / 25 : ℚ)| * 100 + 1 / 2⌋ = 92 := by
    rw [Int.floor_eq_iff, abs_of_nonneg (by norm_num)]
    norm_num
  have hsmall : ¬ ((10 : ℚ) ^ 21 ≤ |(23 / 25 : ℚ)|) := by
    rw [abs_of_nonneg (by norm_num)]
    norm_num
  have hpos : ¬ ((23 / 25 : ℚ) < 0) := by norm_num
  simp only [confidenceLabel, Prim.coalesceZero, Prim.hasToFixed, Prim.toNumber,
    JsNum.toFixed2, if_true, if_neg hsmall, if_neg hpos, hfloor]
  decide

/-- C5, as stated, fails: for an absent confidence the label is the text `NaN`,
and for the non-numeric string `high` the label is `high`, not zero. -/
theorem label_not_zero :
    confidenceLabel .undefined = .chars "NaN" ∧
    stringToNumber "high" = .nan ∧
    confidenceLabel (.str "high") = .chars "high" := by
  refine ⟨by decide, by decide, by decide⟩

/-- C5, amended: for every verdict whose confidence is absent, null or a
non-numeric string, the bar width is zero and not `NaN`; the label is `0.00`
for null and, for a non-numeric string, that string unchanged; both are total
functions of the confidence, so computing them does not fail. -/
theorem missing_confidence_cell (c : Prim)
    (h : c = .undefined ∨ c = .null ∨ ∃ s, c = .str s ∧ stringToNumber s = .nan) :
    barWidth c = .fin 0 ∧
    barWidth c ≠ .nan ∧
    (c = .null → confidenceLabel c = .chars "0.00") ∧
    (∀ s, c = .str s → confidenceLabel c = .chars s) := by
  refine ⟨?_, barWidth_ne_nan c, ?_, ?_⟩
  · rcases h with h | h | ⟨s, h, hs⟩
    · subst h
      exact barWidth_of_nan _ rfl
    · subst h
      simp [barWidth, Prim.toNumber, JsNum.orZero, JsNum.truthy, JsNum.mul, JsNum.min]
    · subst h
      exact barWidth_of_nan _ hs
  · intro hc
    subst hc
    have hfloor : ⌊(2 : ℚ)⁻¹⌋ = 0 := by
      rw [Int.floor_eq_iff]
      norm_num
    simp [confidenceLabel, Prim.coalesceZero, Prim.hasToFixed, Prim.toNumber, JsNum.toFixed2,
      hfloor]
    decide
  · intro s hc
    subst hc
    rfl

/-- C5, amended, at the confidence `high`. -/
theorem missing_confidence_cell_witness :
    barWidth (.str "high") = .fin 0 ∧ confidenceLabel (.str "high") = .chars "high" :=
  ⟨(missing_confidence_cell (.str "high") (Or.inr (Or.inr ⟨"high", rfl, by decide⟩))).1,
   (missing_confidence_cell (.str "high") (Or.inr (Or.inr ⟨"high", rfl, by decide⟩))).2.2.2
     "high" rfl⟩

/-- C6, as stated, fails: the confidence `-0.5` gives the bar width `-50`,
which is below zero. -/
theorem negative_confidence_width :
    barWidth (.num (.fin (-1 / 2))) = .fin (-50) := by
  rw [barWidth_fin]
  norm_num

/-- C6, amended: for every numeric confidence `c` the bar width is `c * 100`
capped at 100, that is `min(100, c * 100)`: it is never above 100, for `c ≥ 0`
it is `c * 100` clamped to the range 0 to 100 (1.5 gives 100, 0.92 gives 92),
and for negative `c` it is the negative number `c * 100`; `NaN` gives 0,
`Infinity` gives 100 and `-Infinity` gives `-Infinity`. -/
theorem barWidth_numeric :
    (∀ c : ℚ, barWidth (.num (.fin c)) = .fin (min 100 (c * 100))) ∧
    (∀ c : ℚ, 0 ≤ c → barWidth (.num (.fin c)) = .fin (max 0 (min 100 (c * 100)))) ∧
    (∀ c : ℚ, c < 0 → barWidth (.num (.fin c)) = .fin (c * 100)) ∧
    barWidth (.num (.fin (3 / 2))) = .fin 100 ∧
    barWidth (.num (.fin (23 / 25))) = .fin 92 ∧
    barWidth (.num .nan) = .fin 0 ∧
    barWidth (.num .posInf) = .fin 100 ∧
    barWidth (.num .negInf) = .negInf := by
  refine ⟨barWidth_fin, ?_, ?_, ?_, ?_, ?_, ?_, ?_⟩
  · intro c hc
    rw [barWidth_fin, max_eq_right]
    exact le_min (by norm_num) (mul_nonneg hc (by norm_num))
  · intro c hc
    rw [barWidth_fin, min_eq_right]
    have : c * 100 < 0 := mul_neg_of_neg_of_pos hc (by norm_num)
    linarith
  · rw [barWidth_fin]
    norm_num
  · rw [barWidth_fin]
    norm_num
  · exact barWidth_of_nan _ rfl
  · exact barWidth_posInf
  · exact barWidth_negInf

/-- C6, amended, at the confidences 0.5 and -0.25. -/
theorem barWidth_numeric_witness :
    barWidth (.num (.fin (1 / 2))) = .fin (max 0 (min 100 (1 / 2 * 100))) ∧
    barWidth (.num (.fin (-1 / 4))) = .fin (-1 / 4 * 100) :=
  ⟨barWidth_numeric.2.1 (1 / 2) (by norm_num), barWidth_numeric.2.2.1 (-1 / 4) (by norm_num)⟩

/-! ## Rows of the results table (C7) -/

/-- The row of an element that is neither `null` nor `undefined`. -/
theorem renderRow_ok (i : Nat) (r : JsVal) (h : r.nullish = false) :
    renderRow i r = .ok (expectedRow i r) := by
  simp [renderRow, JsVal.getProp, h, expectedRow, bind, Except.bind, pure, Except.pure]

/-- The `map` over elements none of which is `null` or `undefined` returns one
row per element, in order, numbered from the starting index. -/
theorem renderRows_ok (items : List JsVal) :
    ∀ i : Nat, (∀ v ∈ items, v.nullish = false) →
      ∃ rows, renderRows i items = .ok rows ∧ rows.length = items.length ∧
        ∀ j r, items[j]? = some r → rows[j]? = some (expectedRow (i + j) r) := by
  induction items with
  | nil =>
    intro i _
    exact ⟨[], rfl, rfl, by simp⟩
  | cons r rs ih =>
    intro i hv
    have hr : r.nullish = false := hv r (List.mem_cons_self r rs)
    obtain ⟨rows, hrows, hlen, hget⟩ := ih (i + 1) fun v hm => hv v (List.mem_cons_of_mem r hm)
    refine ⟨expectedRow i r :: rows, ?_, ?_, ?_⟩
    · simp [renderRows, renderRow_ok i r hr, hrows, bind, Except.bind, pure, Except.pure]
    · simp [hlen]
    · intro j x hx
      cases j with
      | zero =>
        simp only [List.getElem?_cons_zero, Option.some.injEq] at hx
        subst hx
        simp
      | succ k =>
        simp only [List.getElem?_cons_succ] at hx
        have := hget k x hx
        simp only [List.getElem?_cons_succ, this]
        congr 2
        omega

/-- C7: for every result (a truthy `results`) whose `result` field is a
sequence of N verdicts (elements that are neither `null` nor `undefined`), the
table has exactly N rows and row i (0-based) shows the fields of the i-th
element with index label i + 1; when `result` is not a sequence the panel shows
no table, only the dump of `result`. -/
theorem results_rows_in_order (results : JsVal) (ht : results.truthy = true) :
    (∀ items : List JsVal, results.prop "result" = .arr items →
      (∀ v ∈ items, v.nullish = false) →
      ∃ rows,
        renderResults results = .ok (.table (pagesShown results) (modelShown results) rows) ∧
        rows.length = items.length ∧
        ∀ i r, items[i]? = some r →
          ∃ row, rows[i]? = some row ∧ row.key = i ∧ row.ruleNo = i + 1 ∧
            row.rule = r.prop "rule" ∧ row.status = r.prop "status" ∧
            row.style = statusStyle (r.prop "status") ∧
            row.evidence = r.prop "evidence" ∧ row.reasoning = r.prop "reasoning" ∧
            row.confidence = r.prop "confidence") ∧
    ((results.prop "result").isArray = false →
      renderResults results =
        .ok (.dump (pagesShown results) (modelShown results) (results.prop "result"))) := by
  constructor
  · intro items hres hv
    obtain ⟨rows, hrows, hlen, hget⟩ := renderRows_ok items 0 hv
    refine ⟨rows, ?_, hlen, ?_⟩
    · simp only [renderResults, ht, hres, hrows]
      rfl
    · intro i r hi
      refine ⟨expectedRow (0 + i) r, hget i r hi, ?_⟩
      simp [expectedRow]
  · intro hna
    simp only [renderResults, ht]
    cases hres : results.prop "result" with
    | prim p => rfl
    | arr items => simp [hres, JsVal.isArray] at hna
    | obj props => rfl

/-- C7 in the end-to-end scenario: the one verdict gives one row, labelled 1,
with status `PASS` in the first colour class. -/
theorem results_rows_in_order_witness :
    ∃ rows,
      renderResults sampleResponse =
        .ok (.table (pagesShown sampleResponse) (modelShown sampleResponse) rows) ∧
      rows.length = 1 ∧
      ∃ row, rows[0]? = some row ∧ row.ruleNo = 1 ∧ row.status = .str "PASS" ∧
        row.style = .emerald := by
  obtain ⟨rows, hr, hlen, hrow⟩ :=
    (results_rows_in_order sampleResponse rfl).1
      [.obj [("rule", .str "must have a date"), ("status", .str "PASS"),
             ("evidence", .str "2024-01-01"), ("reasoning", .str "date found"),
             ("confidence", .prim (.num (.fin (23 / 25))))]]
      rfl (by intro v hv; simp at hv; subst hv; rfl)
  obtain ⟨row, h0, _, hno, _, hst, hsty, _⟩ := hrow 0 _ rfl
  exact ⟨rows, hr, hlen, row, h0, hno, hst, by rw [hsty]; decide⟩

/-! ## The copied indicator (C8) -/

/-- A successful copy of a displayed result sets the flag and adds one timer. -/
theorem copy_written (w : World) (h : w.ui.results.truthy = true) :
    w.copy .written =
      { w with ui := { w.ui with copied := true }, timers := w.timers ++ [w.now + 2000] } := by
  simp [World.copy, handleCopyResults, h, World.run, World.apply, State.apply]

/-- C8, as stated, fails: a second copy is made at 1000 ms, before the timer of
the first copy (made at 0 ms) fires; both timers are pending, and at 2000 ms,
1000 ms after the most recent copy, the indicator is off. -/
theorem earlier_timer_hides_indicator :
    twoCopies.now = 1000 ∧
    twoCopies.ui.copied = true ∧
    twoCopies.timers = [2000, 3000] ∧
    (twoCopies.advance 1000).now = 2000 ∧
    (twoCopies.advance 1000).ui.copied = false := by
  refine ⟨by decide, by decide, by decide, by decide, by decide⟩

/-- C8, amended: after a successful copy the copied indicator is true; each
successful copy adds its own timer, due 2000 ms later, and cancels none, so the
indicator stays true exactly until the earliest pending timer fires, which is
2000 ms after this copy only when no earlier copy left a timer pending: a
second copy made before the first timer fires stacks a timer and the indicator
is turned off by the earlier one.  A new result turns the indicator off at
once; a reset changes neither the indicator nor the timers. -/
theorem copied_until_earliest_timer (w : World) (h : w.ui.results.truthy = true) :
    (w.copy .written).ui.copied = true ∧
    (w.copy .written).timers = w.timers ++ [w.now + 2000] ∧
    (∀ d, ((w.copy .written).advance d).ui.copied = true ↔
      (d < 2000 ∧ ∀ t ∈ w.timers, w.now + d < t)) ∧
    (∀ f data, w.ui.file = some f →
      ((w.copy .written).submit (.ok data)).ui.copied = false) ∧
    (w.copy .written).reset.ui.copied = true ∧
    (w.copy .written).reset.timers = (w.copy .written).timers := by
  rw [copy_written w h]
  refine ⟨rfl, rfl, ?_, ?_, rfl, rfl⟩
  · intro d
    simp only [World.advance]
    by_cases hfire : (w.timers ++ [w.now + 2000]).any (fun t => decide (t ≤ w.now + d)) = true
    · rw [if_pos hfire]
      simp only [Bool.false_eq_true, false_iff, not_and, not_forall]
      intro hd
      simp only [List.any_append, List.any_cons, List.any_nil, Bool.or_false, Bool.or_eq_true,
        List.any_eq_true, decide_eq_true_eq] at hfire
      rcases hfire with ⟨t, ht, hle⟩ | hle
      · exact ⟨t, ht, by omega⟩
      · omega
    · rw [if_neg hfire]
      simp only [List.any_append, List.any_cons, List.any_nil, Bool.or_false, Bool.or_eq_true,
        List.any_eq_true, decide_eq_true_eq, not_or, not_exists, not_and, not_le] at hfire
      simp only [true_iff]
      exact ⟨by omega, fun t ht => hfire.1 t ht⟩
  · intro f data hf
    simp [World.submit, handleSubmit, hf, World.run, World.apply, State.apply]

/-- C8, amended, after a check: the first copy shows the indicator, which is
still on 1999 ms later. -/
theorem copied_until_earliest_timer_witness :
    checkedWorld.ui.results.truthy = true ∧
    (checkedWorld.copy .written).ui.copied = true ∧
    ((checkedWorld.copy .written).advance 1999).ui.copied = true :=
  ⟨by decide, (copied_until_earliest_timer checkedWorld (by decide)).1,
   ((copied_until_earliest_timer checkedWorld (by decide)).2.2.1 1999).2
     ⟨by decide, by intro t ht; cases ht⟩⟩

end Niyamr
